import Mathlib

/-!
Verification of the Suvidhaa booking backend (src/server.js) against its
natural-language specification.

The server is a single-file Express application over a Mongo document store.
We embed its data model (User, Provider, Booking collections) and the route
handlers relevant to the claims as pure Lean functions over an explicit
`DB` state.  External collaborators are modelled as explicit parameters:

* password hashing / comparison (`bcrypt`) is an opaque comparator passed to
  `login` and an opaque `hashed` string passed to `signup`;
* token signing (`jwt.sign`) is an opaque signing function;
* `Date.now()` is an explicit `now : Nat` (milliseconds);
* Mongo `_id` generation is an explicit fresh-id parameter;
* a store-level write failure of `provider.save()` is an explicit Boolean
  outcome (used for the atomicity claim about provider registration).

The Mongoose schema options that the handlers rely on are embedded where
they act: the `lowercase: true` setter on `User.email` lowercases the value
both on save and on `findOne` query filters, and the `required` validators
of `bookingSchema` reject a document with an absent required field at
`save()` time (surfaced by the route's catch-all as HTTP 500).
-/

/-- A stored User document (collection `User`, src/server.js lines 33-43).
`id` stands for the Mongo `_id`. The `password` field holds the bcrypt hash. -/
structure UserR where
  id : Nat
  fullName : String
  email : String
  phone : String
  gender : String
  password : String
  role : String
  createdAt : Nat
deriving DecidableEq, Repr

/-- A stored Provider document (collection `Provider`, lines 46-58). -/
structure ProviderR where
  id : Nat
  userId : Nat
  services : List String
  experience : Int
  location : String
  availability : String
  rating : Int
  totalReviews : Nat
  verified : Bool
  createdAt : Nat
deriving DecidableEq, Repr

/-- A stored Booking document (collection `Booking`, lines 61-78). -/
structure BookingR where
  id : Nat
  bookingId : String
  customerId : Nat
  providerId : Nat
  service : String
  date : String
  time : String
  location : String
  amount : Int
  status : String
  createdAt : Nat
deriving DecidableEq, Repr

/-- The document store state: the three collections the claims touch. -/
structure DB where
  users : List UserR
  providers : List ProviderR
  bookings : List BookingR
deriving DecidableEq, Repr

/-- An HTTP response projected to status code and `message` body field. -/
structure Resp where
  status : Nat
  message : String
deriving DecidableEq, Repr

/-- JS falsiness of a destructured request-body string field:
`undefined` (absent) or the empty string. -/
def falsy (o : Option String) : Bool :=
  match o with
  | none => true
  | some s => s.isEmpty

/-- ASCII lowercasing, the effect of the Mongoose `lowercase: true` setter
(and of a case-insensitive comparison after normalisation). -/
def lowerStr (s : String) : String :=
  String.mk (s.data.map Char.toLower)

/-- Fuel-indexed decimal rendering; the fuel only bounds the recursion depth
and any fuel above the argument gives the same digits. -/
def natToDecimalFuel (fuel : Nat) (n : Nat) : List Char :=
  match fuel with
  | 0 => []
  | fuel + 1 =>
    if n < 10 then [Char.ofNat (48 + n)]
    else natToDecimalFuel fuel (n / 10) ++ [Char.ofNat (48 + n % 10)]

/-- Decimal rendering of a natural number, the embedding of JS
`Number.prototype.toString()` on a nonnegative integer. -/
def natToDecimal (n : Nat) : List Char :=
  natToDecimalFuel (n + 1) n

/-- JS `String.prototype.slice(-6)`: the last six characters
(the whole string when it is shorter). -/
def lastSixChars (l : List Char) : List Char :=
  l.drop (l.length - 6)

/-- Line 241: `const bookingId = 'BK' + Date.now().toString().slice(-6);` -/
def genBookingId (now : Nat) : String :=
  "BK" ++ String.mk (lastSixChars (natToDecimal now))

/-- The last six decimal digits of `n`, kept with leading zeros: the decimal
rendering of `n % 1000000` left-padded with the digit 0 to width six.  This is
the specification-side reading of the bookingId generation scheme. -/
def sixDigitSuffix (n : Nat) : String :=
  String.mk
    (List.replicate (6 - (natToDecimal (n % 1000000)).length) (Char.ofNat 48)
      ++ natToDecimal (n % 1000000))

/-- Lookup `User.findOne({ email })`: the `lowercase` setter of the email path is
applied to the query value, so the stored email is compared against the
lowercased request email. -/
def findUserByEmail (db : DB) (email : String) : Option UserR :=
  db.users.find? (fun u => u.email == lowerStr email)

/-- Lookup `Provider.findOne({ userId })`. -/
def findProviderByUserId (db : DB) (userId : Nat) : Option ProviderR :=
  db.providers.find? (fun p => p.userId == userId)

/-- Handler of `POST /api/auth/signup` (lines 114-174).  `hashed` is the value
returned by `bcrypt.hash(password, 10)`; `newId` and `now` are the fresh
Mongo id and creation time.  Returns the response and the post-state. -/
def signup (db : DB) (fullName email phone gender password : Option String)
    (hashed : String) (newId now : Nat) : Resp × DB :=
  if falsy fullName || falsy email || falsy phone || falsy gender || falsy password then
    ({ status := 400, message := "All fields are required" }, db)
  else
    let pw := password.getD ""
    if pw.length < 8 then
      ({ status := 400, message := "Password must be at least 8 characters" }, db)
    else
      match findUserByEmail db (email.getD "") with
      | some _ => ({ status := 400, message := "User already exists with this email" }, db)
      | none =>
        if gender.getD "" == "male" || gender.getD "" == "female" || gender.getD "" == "other" then
          let u : UserR :=
            { id := newId, fullName := fullName.getD "", email := lowerStr (email.getD ""),
              phone := phone.getD "", gender := gender.getD "", password := hashed,
              role := "customer", createdAt := now }
          ({ status := 201, message := "User registered successfully" },
           { db with users := db.users ++ [u] })
        else
          ({ status := 500, message := "Server error" }, db)

/-- The public projection of a user returned by login (lines 207-212). -/
structure PubUser where
  id : Nat
  fullName : String
  email : String
  role : String
deriving DecidableEq, Repr

/-- A login response: status, `message`, and the token/user fields that are
present only on success. -/
structure LoginRes where
  status : Nat
  message : String
  token : Option String
  user : Option PubUser
deriving DecidableEq, Repr

/-- Handler of `POST /api/auth/login` (lines 177-218).  `check` is
`bcrypt.compare`; `sign` is `jwt.sign` over the id and role claims. -/
def login (db : DB) (check : String → String → Bool) (sign : Nat → String → String)
    (email password : Option String) : LoginRes :=
  if falsy email || falsy password then
    { status := 400, message := "Email and password are required", token := none, user := none }
  else
    match findUserByEmail db (email.getD "") with
    | none =>
      { status := 401, message := "Invalid credentials", token := none, user := none }
    | some u =>
      if check (password.getD "") u.password then
        { status := 200, message := "Login successful", token := some (sign u.id u.role),
          user := some { id := u.id, fullName := u.fullName, email := u.email, role := u.role } }
      else
        { status := 401, message := "Invalid credentials", token := none, user := none }

/-- Handler of `POST /api/bookings` (lines 236-265).  The route performs no
field validation; the document is handed to `booking.save()`, whose
`required` validators reject an absent field, which the catch-all converts
to a 500 "Server error" response.  `userId` comes from the verified token. -/
def createBooking (db : DB) (userId : Nat) (providerId : Option Nat)
    (service date time location : Option String) (amount : Option Int)
    (now newId : Nat) : Resp × DB :=
  match providerId, service, date, time, location, amount with
  | some pid, some sv, some dt, some tm, some loc, some am =>
    let b : BookingR :=
      { id := newId, bookingId := genBookingId now, customerId := userId,
        providerId := pid, service := sv, date := dt, time := tm, location := loc,
        amount := am, status := "pending", createdAt := now }
    ({ status := 201, message := "Booking created successfully" },
     { db with bookings := db.bookings ++ [b] })
  | _, _, _, _, _, _ => ({ status := 500, message := "Server error" }, db)

/-- Ordering `.sort({ createdAt: -1 })`: most recent first. -/
def laterFirst (a b : BookingR) : Prop :=
  b.createdAt ≤ a.createdAt

instance : DecidableRel laterFirst :=
  fun a b => Nat.decLe b.createdAt a.createdAt

instance : IsTotal BookingR laterFirst :=
  ⟨fun a b => Nat.le_total b.createdAt a.createdAt⟩

instance : IsTrans BookingR laterFirst :=
  ⟨fun _ _ _ h1 h2 => Nat.le_trans h2 h1⟩

/-- Sorting of a booking query result by `createdAt` descending. -/
def sortByCreatedAtDesc (l : List BookingR) : List BookingR :=
  l.insertionSort laterFirst

/-- Handler of `GET /api/bookings` (lines 281-302).  For a provider-role caller
the query is narrowed to that caller's Provider record only when such a
record exists; otherwise (and for every non-provider role) the query is
unfiltered. -/
def bookingQuery (userId : Nat) (userRole : String) (db : DB) : BookingR → Bool :=
  if userRole = "provider" then
    match findProviderByUserId db userId with
    | some p => fun b => b.providerId == p.id
    | none => fun _ => true
  else fun _ => true

/-- Query result of the list-all route: the (possibly narrowed) booking set,
most recent first. -/
def listAllBookings (userId : Nat) (userRole : String) (db : DB) : List BookingR :=
  sortByCreatedAtDesc (db.bookings.filter (bookingQuery userId userRole db))

/-- Handler of `PATCH /api/bookings/:id/status`. (lines 305-322).
`Booking.findByIdAndUpdate(id, { status }, { new: true })` sets the status
field unconditionally (no update validators run by default), then the
handler 404s when no document matched. -/
def updateBookingStatus (db : DB) (id : Nat) (newStatus : String) : Resp × DB :=
  match db.bookings.find? (fun b => b.id == id) with
  | none => ({ status := 404, message := "Booking not found" }, db)
  | some _ =>
    ({ status := 200, message := "Booking status updated" },
     { db with bookings :=
        db.bookings.map (fun b => if b.id == id then { b with status := newStatus } else b) })

/-- Handler of `POST /api/providers/register` (lines 327-357).  The user's role
is updated (awaited) before `provider.save()`; `saveFails` is the outcome of
that second store write, modelling a store-level failure surfaced by the
catch-all as 500. -/
def registerProvider (db : DB) (userId : Nat) (services : List String)
    (experience : Int) (location availability : String) (newPid now : Nat)
    (saveFails : Bool) : Resp × DB :=
  match findProviderByUserId db userId with
  | some _ => ({ status := 400, message := "Already registered as provider" }, db)
  | none =>
    let db1 : DB :=
      { db with users :=
          db.users.map (fun u => if u.id == userId then { u with role := "provider" } else u) }
    if saveFails then
      ({ status := 500, message := "Server error" }, db1)
    else
      ({ status := 201, message := "Provider registration successful" },
       { db1 with providers :=
          db1.providers ++
            [{ id := newPid, userId := userId, services := services,
               experience := experience, location := location,
               availability := availability, rating := 0, totalReviews := 0,
               verified := false, createdAt := now }] })

/-- The characters that are special in a JS regular expression pattern.
A filter string containing none of them denotes itself literally. -/
def regexMetaChars : List Char :=
  ['.', '*', '+', '?', '^', '$', '(', ')', '[', ']', '|',
   Char.ofNat 92, Char.ofNat 123, Char.ofNat 125]

/-- Whether a filter string contains any regex metacharacter. -/
def hasRegexMeta (s : String) : Bool :=
  s.data.any (fun c => regexMetaChars.contains c)

/-- One token of a compiled pattern: a literal character or the
any-single-character metacharacter. -/
inductive RegTok where
  | lit (c : Char)
  | dot
deriving DecidableEq, Repr

/-- Compilation of a pattern string as `new RegExp(pattern)` reads it, for
patterns built from literal characters and the metacharacter dot: dot
becomes the any-character token, every other character a literal.  The
remaining regex constructs (quantifiers, classes, groups, anchors, escapes)
are never produced by the inputs any theorem below quantifies over. -/
def parseRegex (pat : List Char) : List RegTok :=
  pat.map (fun c => if c == '.' then RegTok.dot else RegTok.lit c)

/-- Anchored-at-this-position token matching, case-insensitive as under the
regex `i` flag: a literal consumes one equal-up-to-case character, dot
consumes any one character. -/
def matchToksHere : List RegTok → List Char → Bool
  | [], _ => true
  | _ :: _, [] => false
  | RegTok.lit c :: ts, x :: xs => (Char.toLower x == Char.toLower c) && matchToksHere ts xs
  | RegTok.dot :: ts, _ :: xs => matchToksHere ts xs

/-- Unanchored matching: the pattern may match starting at any position of
the subject, as `RegExp.prototype.test` does. -/
def matchToks (ts : List RegTok) : List Char → Bool
  | [] => matchToksHere ts []
  | x :: xs => matchToksHere ts (x :: xs) || matchToks ts xs

/-- The query value `new RegExp(location, 'i')` of line 370 as Mongo
evaluates it against a stored string: an unanchored case-insensitive regex
test of the filter pattern against the stored location. -/
def regexTestCI (pat hay : String) : Bool :=
  matchToks (parseRegex pat.data) hay.data

/-- Handler of `GET /api/providers` (lines 360-380).  The base query is
`{ verified: true }`; a `service` query parameter is an exact element match
against the `services` array; a `location` parameter is a case-insensitive
substring match. -/
def listProviders (db : DB) (service location : Option String) : List ProviderR :=
  db.providers.filter (fun p =>
    p.verified
    && (match service with | some s => p.services.contains s | none => true)
    && (match location with | some l => regexTestCI l p.location | none => true))

/-- A dashboard stats response: status, the `message` body field present on
failure, and the stat fields present for the respective role. -/
structure StatsRes where
  status : Nat
  message : Option String
  totalBookings : Option Nat
  pendingBookings : Option Nat
  completedBookings : Option Nat
  totalRevenue : Option Int
  averageRating : Option Int
deriving DecidableEq, Repr

/-- Handler of `GET /api/dashboard/stats` (lines 441-491).  For a provider-role
caller: 404 when no Provider record exists for the caller, else counts and
the completed-revenue aggregation scoped to that provider's id, with
`averageRating` read from the provider's stored `rating` field.  For any
other role: counts scoped to the caller as customer. -/
def dashboardStats (db : DB) (userId : Nat) (role : String) : StatsRes :=
  if role = "provider" then
    match findProviderByUserId db userId with
    | none =>
      { status := 404, message := some "Provider profile not found",
        totalBookings := none, pendingBookings := none, completedBookings := none,
        totalRevenue := none, averageRating := none }
    | some p =>
      { status := 200, message := none,
        totalBookings := some (db.bookings.filter (fun b => b.providerId == p.id)).length,
        pendingBookings := some
          (db.bookings.filter (fun b => b.providerId == p.id && b.status == "pending")).length,
        completedBookings := some
          (db.bookings.filter (fun b => b.providerId == p.id && b.status == "completed")).length,
        totalRevenue := some
          (((db.bookings.filter (fun b => b.providerId == p.id && b.status == "completed")).map
              (fun b => b.amount)).sum),
        averageRating := some p.rating }
  else
    { status := 200, message := none,
      totalBookings := some (db.bookings.filter (fun b => b.customerId == userId)).length,
      pendingBookings := some
        (db.bookings.filter (fun b => b.customerId == userId && b.status == "pending")).length,
      completedBookings := none, totalRevenue := none, averageRating := none }

/-! ### Decimal rendering lemmas

These support the bookingId-generation claim: on any millisecond timestamp
(at least seven digits), slicing the last six characters of the decimal
rendering yields exactly the last six decimal digits, zero-padded. -/

theorem natToDecimalFuel_congr :
    ∀ fuel₁ fuel₂ n : Nat, n < fuel₁ → n < fuel₂ →
      natToDecimalFuel fuel₁ n = natToDecimalFuel fuel₂ n := by
  intro fuel₁
  induction fuel₁ with
  | zero =>
    intro fuel₂ n h1 _
    omega
  | succ f ih =>
    intro fuel₂ n h1 h2
    cases fuel₂ with
    | zero => omega
    | succ g =>
      show natToDecimalFuel (f + 1) n = natToDecimalFuel (g + 1) n
      by_cases hn : n < 10
      · simp [natToDecimalFuel, hn]
      · have hlt : n / 10 < n := Nat.div_lt_self (by omega) (by omega)
        have hstep := ih g (n / 10) (by omega) (by omega)
        simp only [natToDecimalFuel, hn, if_false]
        rw [hstep]

theorem natToDecimal_lt {n : Nat} (h : n < 10) :
    natToDecimal n = [Char.ofNat (48 + n)] := by
  unfold natToDecimal natToDecimalFuel
  simp [h]

theorem natToDecimalFuel_succ (fuel n : Nat) :
    natToDecimalFuel (fuel + 1) n =
      if n < 10 then [Char.ofNat (48 + n)]
      else natToDecimalFuel fuel (n / 10) ++ [Char.ofNat (48 + n % 10)] := rfl

theorem natToDecimal_ge {n : Nat} (h : 10 ≤ n) :
    natToDecimal n = natToDecimal (n / 10) ++ [Char.ofNat (48 + n % 10)] := by
  have hlt : n / 10 < n := Nat.div_lt_self (by omega) (by omega)
  have hstep := natToDecimalFuel_congr n (n / 10 + 1) (n / 10) (by omega) (by omega)
  unfold natToDecimal
  rw [natToDecimalFuel_succ, if_neg (by omega), hstep]

theorem natToDecimal_step {a d : Nat} (ha : 0 < a) (hd : d < 10) :
    natToDecimal (10 * a + d) = natToDecimal a ++ [Char.ofNat (48 + d)] := by
  have h10 : 10 ≤ 10 * a + d := by omega
  have hdiv : (10 * a + d) / 10 = a := by
    rw [Nat.mul_add_div (by omega)]
    simp [Nat.div_eq_of_lt hd]
  have hmod : (10 * a + d) % 10 = d := by
    rw [Nat.mul_add_mod]
    exact Nat.mod_eq_of_lt hd
  rw [natToDecimal_ge h10, hdiv, hmod]

theorem natToDecimal_length_le {k : Nat} :
    ∀ {b : Nat}, b < 10 ^ (k + 1) → (natToDecimal b).length ≤ k + 1 := by
  induction k with
  | zero =>
    intro b hb
    rw [natToDecimal_lt (by simpa using hb)]
    simp
  | succ k ih =>
    intro b hb
    by_cases h : b < 10
    · rw [natToDecimal_lt h]
      simp
    · have h10 : 10 ≤ b := Nat.not_lt.1 h
      have hb' : b / 10 < 10 ^ (k + 1) := by
        refine (Nat.div_lt_iff_lt_mul (by omega)).2 ?_
        calc b < 10 ^ (k + 1 + 1) := hb
        _ = 10 ^ (k + 1) * 10 := by rw [pow_succ]
      rw [natToDecimal_ge h10]
      have := ih hb'
      simp only [List.length_append, List.length_cons, List.length_nil]
      omega

theorem natToDecimal_split {k : Nat} :
    ∀ {a b : Nat}, 0 < a → b < 10 ^ (k + 1) →
      natToDecimal (a * 10 ^ (k + 1) + b) =
        natToDecimal a ++
          (List.replicate (k + 1 - (natToDecimal b).length) (Char.ofNat 48)
            ++ natToDecimal b) := by
  induction k with
  | zero =>
    intro a b ha hb
    have hb10 : b < 10 := by simpa using hb
    have h1 : a * 10 ^ 1 + b = 10 * a + b := by ring
    rw [h1, natToDecimal_step ha hb10, natToDecimal_lt hb10]
    simp
  | succ k ih =>
    intro a b ha hb
    have hsplit : a * 10 ^ (k + 1 + 1) + b = 10 * (a * 10 ^ (k + 1) + b / 10) + b % 10 := by
      have h1 : a * 10 ^ (k + 1 + 1) = 10 * (a * 10 ^ (k + 1)) := by ring
      have h2 := Nat.div_add_mod b 10
      omega
    have ha' : 0 < a * 10 ^ (k + 1) + b / 10 := by
      have : 0 < a * 10 ^ (k + 1) := Nat.mul_pos ha (Nat.pos_pow_of_pos _ (by omega))
      omega
    have hbd : b / 10 < 10 ^ (k + 1) := by
      refine (Nat.div_lt_iff_lt_mul (by omega)).2 ?_
      calc b < 10 ^ (k + 1 + 1) := hb
      _ = 10 ^ (k + 1) * 10 := by rw [pow_succ]
    have hmod10 : b % 10 < 10 := Nat.mod_lt _ (by omega)
    rw [hsplit, natToDecimal_step ha' hmod10, ih ha hbd]
    by_cases hsmall : b < 10
    · have hb0 : b / 10 = 0 := Nat.div_eq_of_lt hsmall
      have hbm : b % 10 = b := Nat.mod_eq_of_lt hsmall
      rw [hb0, hbm, natToDecimal_lt hsmall, natToDecimal_lt (show (0:Nat) < 10 by omega)]
      simp only [List.length_singleton, Nat.add_sub_cancel]
      rw [show Char.ofNat (48 + 0) = Char.ofNat 48 from by norm_num]
      rw [List.replicate_succ']
      simp [List.append_assoc]
    · have h10 : 10 ≤ b := Nat.not_lt.1 hsmall
      have hlen : (natToDecimal (b / 10)).length ≤ k + 1 := natToDecimal_length_le hbd
      rw [natToDecimal_ge h10]
      have hk : k + 1 + 1 - ((natToDecimal (b / 10)).length + 1) =
          k + 1 - (natToDecimal (b / 10)).length := by omega
      simp only [List.length_append, List.length_cons, List.length_nil]
      rw [show (natToDecimal (b / 10)).length + (0 + 1) = (natToDecimal (b / 10)).length + 1
        from by omega, hk]
      simp [List.append_assoc]

theorem genBookingId_char (now : Nat) (h : 1000000 ≤ now) :
    genBookingId now = "BK" ++ sixDigitSuffix now := by
  unfold genBookingId sixDigitSuffix
  congr 1
  congr 1
  have hsplit : now = (now / 1000000) * 10 ^ 6 + now % 1000000 := by
    have := Nat.div_add_mod now 1000000
    have hp : (10:Nat) ^ 6 = 1000000 := by norm_num
    omega
  have ha : 0 < now / 1000000 := Nat.div_pos h (by omega)
  have hb : now % 1000000 < 10 ^ 6 := by
    have := Nat.mod_lt now (y := 1000000) (by omega)
    norm_num
    omega
  have h6 : (10:Nat) ^ 6 = 10 ^ (5 + 1) := by norm_num
  rw [show natToDecimal now =
        natToDecimal ((now / 1000000) * 10 ^ (5 + 1) + now % 1000000) from by
      rw [← h6, ← hsplit]]
  rw [natToDecimal_split ha (by rw [← h6]; exact hb)]
  have hlen : (natToDecimal (now % 1000000)).length ≤ 6 :=
    natToDecimal_length_le (k := 5) (by rw [← h6]; exact hb)
  unfold lastSixChars
  have hpadlen :
      (List.replicate (5 + 1 - (natToDecimal (now % 1000000)).length) (Char.ofNat 48)
        ++ natToDecimal (now % 1000000)).length = 6 := by
    simp only [List.length_append, List.length_replicate]
    omega
  rw [List.drop_left']
  simp only [List.length_append, List.length_replicate]
  omega

/-! ### Claim theorems -/

/-- C2: for every call to `PATCH /api/bookings/:id/status`, an id that does
not resolve to a stored booking yields 404 with no modification; a
resolving id sets that booking's status to the supplied value — for any
value, with no transition or ownership constraint — leaving every other
field of the booking and every other document unchanged. -/
theorem C2_updateStatus_spec (db : DB) (id : Nat) (newStatus : String) :
    (db.bookings.find? (fun b => b.id == id) = none →
      updateBookingStatus db id newStatus =
        ({ status := 404, message := "Booking not found" }, db)) ∧
    ((db.bookings.find? (fun b => b.id == id)).isSome →
      (updateBookingStatus db id newStatus).1.status = 200 ∧
      (updateBookingStatus db id newStatus).2.users = db.users ∧
      (updateBookingStatus db id newStatus).2.providers = db.providers ∧
      ∀ i : Nat, ∀ b : BookingR, db.bookings[i]? = some b →
        (updateBookingStatus db id newStatus).2.bookings[i]? =
          some (if b.id = id then { b with status := newStatus } else b)) := by
  constructor
  · intro h
    unfold updateBookingStatus
    rw [h]
  · intro h
    rcases Option.isSome_iff_exists.1 h with ⟨b0, hb0⟩
    unfold updateBookingStatus
    rw [hb0]
    refine ⟨rfl, rfl, rfl, ?_⟩
    intro i b hi
    simp only [List.getElem?_map, hi, Option.map_some']
    by_cases hb : b.id = id
    · simp [hb]
    · simp [hb]

/-- Example store for the update-status claims: one pending booking. -/
def bkEx : BookingR :=
  { id := 1, bookingId := "BK000001", customerId := 7, providerId := 3,
    service := "plumbing", date := "2026-01-01", time := "10:00",
    location := "Delhi", amount := 500, status := "pending", createdAt := 5 }

/-- Example store holding only `bkEx`. -/
def dbUpd : DB := { users := [], providers := [], bookings := [bkEx] }

/-- Witness for C2: the empty store 404s unchanged, and updating the stored
booking rewrites exactly its status field. -/
theorem C2_updateStatus_spec_witness :
    updateBookingStatus { users := [], providers := [], bookings := [] } 9 "confirmed" =
      ({ status := 404, message := "Booking not found" },
       { users := [], providers := [], bookings := [] }) ∧
    (updateBookingStatus dbUpd 1 "confirmed").2.bookings[0]? =
      some { bkEx with status := "confirmed" } := by
  constructor
  · exact (C2_updateStatus_spec _ 9 "confirmed").1 rfl
  · have h := ((C2_updateStatus_spec dbUpd 1 "confirmed").2 (by decide)).2.2.2 0 bkEx rfl
    simpa using h

/-- C3: a signup whose email equals a registered user's email up to case
(given otherwise well-formed input) is answered 400 with the duplicate-email
message and leaves the store unchanged — no second User document is written. -/
theorem C3_signup_duplicate (db : DB) (fn em ph g pw hashed : String) (newId now : Nat)
    (u : UserR) (hu : u ∈ db.users)
    (hstored : u.email = lowerStr u.email)
    (hmatch : lowerStr u.email = lowerStr em)
    (hfn : fn ≠ "") (hem : em ≠ "") (hph : ph ≠ "") (hg : g ≠ "")
    (hpw : 8 ≤ pw.length) :
    signup db (some fn) (some em) (some ph) (some g) (some pw) hashed newId now =
      ({ status := 400, message := "User already exists with this email" }, db) := by
  have hsome : (findUserByEmail db em).isSome := by
    unfold findUserByEmail
    refine List.find?_isSome.2 ⟨u, hu, ?_⟩
    rw [show u.email = lowerStr em from hstored.trans hmatch]
    simp
  rcases Option.isSome_iff_exists.1 hsome with ⟨v, hv⟩
  have hpw' : pw ≠ "" := by
    intro h
    rw [h] at hpw
    simp at hpw
  unfold signup
  rw [if_neg (by simp [falsy, String.isEmpty_iff, hfn, hem, hph, hg, hpw'])]
  simp only [Option.getD_some]
  rw [if_neg (by omega), hv]

/-- Registered user for the duplicate-signup witness (email stored
lowercased, as the schema setter guarantees). -/
def userAlice : UserR :=
  { id := 1, fullName := "Alice", email := "alice@x.com", phone := "123",
    gender := "female", password := "hash1", role := "customer", createdAt := 0 }

/-- Store holding only `userAlice`. -/
def dbAlice : DB := { users := [userAlice], providers := [], bookings := [] }

/-- Witness for C3: signing up with a case variant of a registered email is
rejected with 400 and the store is unchanged. -/
theorem C3_signup_duplicate_witness :
    signup dbAlice (some "Bob") (some "Alice@X.com") (some "456") (some "male")
        (some "longpassword") "hash2" 2 9 =
      ({ status := 400, message := "User already exists with this email" }, dbAlice) :=
  C3_signup_duplicate dbAlice "Bob" "Alice@X.com" "456" "male" "longpassword" "hash2" 2 9
    userAlice (by decide) (by decide) (by decide)
    (by decide) (by decide) (by decide) (by decide) (by decide)

/-- C4: a login with a registered email and a non-matching password and a
login with an unregistered email produce the identical response: the same
401 status and the same body, with no token and no user. -/
theorem C4_login_indistinguishable (db : DB) (check : String → String → Bool)
    (sign : Nat → String → String) (e1 p1 e2 p2 : String) (u : UserR)
    (h1 : findUserByEmail db e1 = some u)
    (h2 : check p1 u.password = false)
    (h3 : findUserByEmail db e2 = none)
    (he1 : e1 ≠ "") (hp1 : p1 ≠ "") (he2 : e2 ≠ "") (hp2 : p2 ≠ "") :
    login db check sign (some e1) (some p1) =
      { status := 401, message := "Invalid credentials", token := none, user := none } ∧
    login db check sign (some e2) (some p2) =
      { status := 401, message := "Invalid credentials", token := none, user := none } ∧
    login db check sign (some e1) (some p1) = login db check sign (some e2) (some p2) := by
  have hA : login db check sign (some e1) (some p1) =
      { status := 401, message := "Invalid credentials", token := none, user := none } := by
    unfold login
    rw [if_neg (by simp [falsy, String.isEmpty_iff, he1, hp1])]
    simp only [Option.getD_some]
    rw [h1]
    simp [h2]
  have hB : login db check sign (some e2) (some p2) =
      { status := 401, message := "Invalid credentials", token := none, user := none } := by
    unfold login
    rw [if_neg (by simp [falsy, String.isEmpty_iff, he2, hp2])]
    simp only [Option.getD_some]
    rw [h3]
  exact ⟨hA, hB, hA.trans hB.symm⟩

/-- Witness for C4: with the stored user `userAlice`, a wrong-password login
and an unknown-email login return the same 401 response. -/
theorem C4_login_indistinguishable_witness :
    login dbAlice (fun _ _ => false) (fun _ _ => "tok") (some "alice@x.com") (some "guess") =
      { status := 401, message := "Invalid credentials", token := none, user := none } ∧
    login dbAlice (fun _ _ => false) (fun _ _ => "tok") (some "nobody@x.com") (some "guess") =
      { status := 401, message := "Invalid credentials", token := none, user := none } ∧
    login dbAlice (fun _ _ => false) (fun _ _ => "tok") (some "alice@x.com") (some "guess") =
      login dbAlice (fun _ _ => false) (fun _ _ => "tok") (some "nobody@x.com") (some "guess") :=
  C4_login_indistinguishable dbAlice (fun _ _ => false) (fun _ _ => "tok")
    "alice@x.com" "guess" "nobody@x.com" "guess" userAlice
    (by decide) rfl (by decide) (by decide) (by decide) (by decide) (by decide)

/-- C5: a booking created through `POST /api/bookings` with all fields
present is persisted with status `pending` and a bookingId equal to the
string `BK` followed by the last six decimal digits (with leading zeros) of
the creation-time millisecond timestamp. -/
theorem C5_createBooking_scheme (db : DB) (userId pid : Nat) (sv dt tm loc : String)
    (am : Int) (now newId : Nat) (hnow : 1000000 ≤ now) :
    (createBooking db userId (some pid) (some sv) (some dt) (some tm) (some loc)
        (some am) now newId).1.status = 201 ∧
    ∃ b : BookingR,
      (createBooking db userId (some pid) (some sv) (some dt) (some tm) (some loc)
          (some am) now newId).2.bookings = db.bookings ++ [b] ∧
      b.status = "pending" ∧
      b.bookingId = "BK" ++ sixDigitSuffix now := by
  refine ⟨rfl, ?_⟩
  refine ⟨{ id := newId, bookingId := genBookingId now, customerId := userId,
            providerId := pid, service := sv, date := dt, time := tm, location := loc,
            amount := am, status := "pending", createdAt := now }, rfl, rfl, ?_⟩
  exact genBookingId_char now hnow

/-- Empty store used by several witnesses. -/
def dbEmpty : DB := { users := [], providers := [], bookings := [] }

/-- Witness for C5 at the timestamp 1760000123456: the persisted booking is
pending and its id is BK123456. -/
theorem C5_createBooking_scheme_witness :
    ((createBooking dbEmpty 7 (some 3) (some "plumbing") (some "2026-01-01")
        (some "10:00") (some "Delhi") (some 500) 1760000123456 11).1.status = 201 ∧
     ∃ b : BookingR,
       (createBooking dbEmpty 7 (some 3) (some "plumbing") (some "2026-01-01")
           (some "10:00") (some "Delhi") (some 500) 1760000123456 11).2.bookings =
         dbEmpty.bookings ++ [b] ∧
       b.status = "pending" ∧
       b.bookingId = "BK" ++ sixDigitSuffix 1760000123456) ∧
    "BK" ++ sixDigitSuffix 1760000123456 = "BK123456" :=
  ⟨C5_createBooking_scheme dbEmpty 7 3 "plumbing" "2026-01-01" "10:00" "Delhi" 500
      1760000123456 11 (by norm_num),
   by decide⟩

/-- C9: the booking-create route validates nothing itself; when any required
booking field is absent the store-level validation failure is caught and
answered 500 with the generic server-error message, and no booking is
persisted. -/
theorem C9_createBooking_missing_field (db : DB) (userId : Nat) (pid : Option Nat)
    (sv dt tm loc : Option String) (am : Option Int) (now newId : Nat)
    (h : pid = none ∨ sv = none ∨ dt = none ∨ tm = none ∨ loc = none ∨ am = none) :
    createBooking db userId pid sv dt tm loc am now newId =
      ({ status := 500, message := "Server error" }, db) := by
  cases pid <;> cases sv <;> cases dt <;> cases tm <;> cases loc <;> cases am <;>
    simp_all [createBooking]

/-- Witness for C9: omitting the amount field yields the 500 response and an
unchanged store. -/
theorem C9_createBooking_missing_field_witness :
    createBooking dbEmpty 7 (some 3) (some "plumbing") (some "2026-01-01")
        (some "10:00") (some "Delhi") none 1760000123456 11 =
      ({ status := 500, message := "Server error" }, dbEmpty) :=
  C9_createBooking_missing_field dbEmpty 7 (some 3) (some "plumbing") (some "2026-01-01")
    (some "10:00") (some "Delhi") none 1760000123456 11 (by simp)

/-- C6: provider registration is rejected 400 with the store unchanged when
a Provider record already exists for the caller; otherwise (with the store
write succeeding) a Provider record for the caller's userId is appended and
the caller's User record has its role set to provider, every other user
being untouched. -/
theorem C6_registerProvider_spec (db : DB) (uid : Nat) (services : List String)
    (exper : Int) (loc avail : String) (newPid now : Nat) :
    (∀ p, findProviderByUserId db uid = some p →
      registerProvider db uid services exper loc avail newPid now false =
        ({ status := 400, message := "Already registered as provider" }, db)) ∧
    (findProviderByUserId db uid = none →
      (registerProvider db uid services exper loc avail newPid now false).1.status = 201 ∧
      (registerProvider db uid services exper loc avail newPid now false).2.providers =
        db.providers ++
          [{ id := newPid, userId := uid, services := services, experience := exper,
             location := loc, availability := avail, rating := 0, totalReviews := 0,
             verified := false, createdAt := now }] ∧
      ∀ i : Nat, ∀ u : UserR, db.users[i]? = some u →
        (registerProvider db uid services exper loc avail newPid now false).2.users[i]? =
          some (if u.id = uid then { u with role := "provider" } else u)) := by
  constructor
  · intro p hp
    unfold registerProvider
    rw [hp]
  · intro h
    unfold registerProvider
    rw [h]
    refine ⟨rfl, rfl, ?_⟩
    intro i u hi
    by_cases hu : u.id = uid
    · simp [hu, hi]
    · simp [hu, hi]

/-- Customer user for the provider-registration witnesses. -/
def userCarol : UserR :=
  { id := 4, fullName := "Carol", email := "carol@x.com", phone := "789",
    gender := "other", password := "hash3", role := "customer", createdAt := 0 }

/-- Store holding only `userCarol`, with no Provider records. -/
def dbCarol : DB := { users := [userCarol], providers := [], bookings := [] }

/-- Provider record owned by `userCarol` after a successful registration. -/
def provCarol : ProviderR :=
  { id := 10, userId := 4, services := ["cleaning"], experience := 2,
    location := "Pune", availability := "weekends", rating := 0, totalReviews := 0,
    verified := false, createdAt := 20 }

/-- Store where `userCarol` already owns `provCarol`. -/
def dbCarolProv : DB :=
  { users := [{ userCarol with role := "provider" }], providers := [provCarol],
    bookings := [] }

/-- Witness for C6: a second registration attempt for the same userId is
rejected 400 unchanged, and a first registration appends the Provider record
and flips the user's role. -/
theorem C6_registerProvider_spec_witness :
    registerProvider dbCarolProv 4 ["cleaning"] 2 "Pune" "weekends" 11 30 false =
      ({ status := 400, message := "Already registered as provider" }, dbCarolProv) ∧
    (registerProvider dbCarol 4 ["cleaning"] 2 "Pune" "weekends" 10 20 false).2.providers =
      [provCarol] ∧
    (registerProvider dbCarol 4 ["cleaning"] 2 "Pune" "weekends" 10 20 false).2.users[0]? =
      some { userCarol with role := "provider" } := by
  refine ⟨(C6_registerProvider_spec dbCarolProv 4 ["cleaning"] 2 "Pune" "weekends" 11 30).1
      provCarol rfl, ?_, ?_⟩
  · have h := ((C6_registerProvider_spec dbCarol 4 ["cleaning"] 2 "Pune" "weekends" 10 20).2
      rfl).2.1
    simpa [dbCarol, provCarol] using h
  · have h := ((C6_registerProvider_spec dbCarol 4 ["cleaning"] 2 "Pune" "weekends" 10 20).2
      rfl).2.2 0 userCarol rfl
    simpa using h

/-- C10: provider registration updates the user's role before the Provider
document is saved; when that save fails the response is 500 while the
caller's User record is left with role provider and still no Provider record
exists for the caller. -/
theorem C10_registerProvider_nonatomic (db : DB) (uid : Nat) (services : List String)
    (exper : Int) (loc avail : String) (newPid now : Nat)
    (hnone : findProviderByUserId db uid = none) :
    (registerProvider db uid services exper loc avail newPid now true).1.status = 500 ∧
    (registerProvider db uid services exper loc avail newPid now true).2.providers =
      db.providers ∧
    findProviderByUserId
      (registerProvider db uid services exper loc avail newPid now true).2 uid = none ∧
    ∀ i : Nat, ∀ u : UserR, db.users[i]? = some u →
      (registerProvider db uid services exper loc avail newPid now true).2.users[i]? =
        some (if u.id = uid then { u with role := "provider" } else u) := by
  unfold registerProvider
  rw [hnone]
  refine ⟨rfl, rfl, ?_, ?_⟩
  · unfold findProviderByUserId at hnone ⊢
    exact hnone
  · intro i u hi
    by_cases hu : u.id = uid
    · simp [hu, hi]
    · simp [hu, hi]

/-- Witness for C10: when the Provider save fails after the role update,
`userCarol` is left with role provider and no Provider record. -/
theorem C10_registerProvider_nonatomic_witness :
    (registerProvider dbCarol 4 ["cleaning"] 2 "Pune" "weekends" 10 20 true).1.status = 500 ∧
    (registerProvider dbCarol 4 ["cleaning"] 2 "Pune" "weekends" 10 20 true).2.providers = [] ∧
    findProviderByUserId
      (registerProvider dbCarol 4 ["cleaning"] 2 "Pune" "weekends" 10 20 true).2 4 = none ∧
    (registerProvider dbCarol 4 ["cleaning"] 2 "Pune" "weekends" 10 20 true).2.users[0]? =
      some { userCarol with role := "provider" } := by
  have h := C10_registerProvider_nonatomic dbCarol 4 ["cleaning"] 2 "Pune" "weekends" 10 20 rfl
  refine ⟨h.1, h.2.1, h.2.2.1, ?_⟩
  have h4 := h.2.2.2 0 userCarol rfl
  simpa using h4

/-- A pattern of literal tokens matches at the start of the subject exactly
when the lowercased pattern characters are a prefix of the lowercased
subject. -/
theorem matchToksHere_lit_iff (pat : List Char) :
    ∀ s : List Char, (matchToksHere (pat.map RegTok.lit) s = true ↔
      pat.map Char.toLower <+: s.map Char.toLower) := by
  induction pat with
  | nil =>
    intro s
    simp [matchToksHere]
  | cons c cs ih =>
    intro s
    cases s with
    | nil =>
      simp [matchToksHere]
    | cons x xs =>
      simp only [List.map_cons, matchToksHere, Bool.and_eq_true, beq_iff_eq,
        List.cons_prefix_cons, ih xs]
      constructor
      · rintro ⟨h1, h2⟩
        exact ⟨h1.symm, h2⟩
      · rintro ⟨h1, h2⟩
        exact ⟨h1.symm, h2⟩

/-- A pattern of literal tokens passes the unanchored test exactly when the
lowercased pattern characters are an infix of the lowercased subject. -/
theorem matchToks_lit_iff (pat : List Char) :
    ∀ s : List Char, (matchToks (pat.map RegTok.lit) s = true ↔
      pat.map Char.toLower <:+: s.map Char.toLower) := by
  intro s
  induction s with
  | nil =>
    simp [matchToks, matchToksHere_lit_iff]
  | cons x xs ih =>
    simp only [matchToks, Bool.or_eq_true, matchToksHere_lit_iff, ih, List.map_cons]
    exact List.infix_cons_iff.symm

/-- A pattern free of regex metacharacters compiles to literal tokens only. -/
theorem parseRegex_no_meta {pat : String} (h : hasRegexMeta pat = false) :
    parseRegex pat.data = pat.data.map RegTok.lit := by
  unfold parseRegex
  apply List.map_congr_left
  intro c hc
  have hnm : regexMetaChars.contains c = false := by
    unfold hasRegexMeta at h
    rw [List.any_eq_false] at h
    simpa using h c hc
  have hcd : (c == '.') = false := by
    cases hcd2 : (c == '.') with
    | false => rfl
    | true =>
      have hce : c = '.' := eq_of_beq hcd2
      subst hce
      exact absurd hnm (by decide)
  rw [hcd]
  simp

/-- On filter strings free of regex metacharacters, the regex test of the
handler is exactly case-insensitive substring containment. -/
theorem regexTestCI_no_meta {pat hay : String} (h : hasRegexMeta pat = false) :
    regexTestCI pat hay = true ↔ (lowerStr pat).data <:+: (lowerStr hay).data := by
  unfold regexTestCI
  rw [parseRegex_no_meta h, matchToks_lit_iff]
  exact Iff.rfl

/-- Verified provider located in Delhi, for the regex counterexample. -/
def provDelhi : ProviderR :=
  { id := 5, userId := 9, services := ["plumbing"], experience := 1,
    location := "Delhi", availability := "weekdays", rating := 3, totalReviews := 1,
    verified := true, createdAt := 3 }

/-- Store holding only `provDelhi`. -/
def dbDelhi : DB := { users := [], providers := [provDelhi], bookings := [] }

/-- C7 counterexample: the location filter is used as a regular expression,
not a literal, so the metacharacter filter dot matches the verified provider
located in Delhi although its location does not contain the dot as a
case-insensitive substring. -/
theorem C7_regex_counterexample :
    ¬ (∀ p ∈ listProviders dbDelhi none (some "."),
        (lowerStr ".").data <:+: (lowerStr p.location).data) := by
  decide

/-- C7 (amended): every provider returned by `GET /api/providers` is
verified, whatever filters are supplied; a service filter demands that exact
string in the provider's services set; a location filter free of regex
metacharacters demands the filter as a case-insensitive substring of the
provider's location. -/
theorem C7_listProviders_amended (db : DB) (service location : Option String)
    (p : ProviderR) (hp : p ∈ listProviders db service location) :
    p.verified = true ∧
    (∀ s, service = some s → s ∈ p.services) ∧
    (∀ l, location = some l → hasRegexMeta l = false →
      (lowerStr l).data <:+: (lowerStr p.location).data) := by
  unfold listProviders at hp
  rw [List.mem_filter] at hp
  obtain ⟨hmem, hpred⟩ := hp
  simp only [Bool.and_eq_true] at hpred
  obtain ⟨⟨hv, hs⟩, hl⟩ := hpred
  refine ⟨hv, ?_, ?_⟩
  · intro s hs'
    subst hs'
    simpa using hs
  · intro l hl' hm
    subst hl'
    exact (regexTestCI_no_meta hm).mp hl

/-- Verified provider located in Mumbai, for the directory-filter witness. -/
def provMum : ProviderR :=
  { id := 6, userId := 2, services := ["cleaning"], experience := 3,
    location := "Mumbai", availability := "weekdays", rating := 5, totalReviews := 1,
    verified := true, createdAt := 2 }

/-- Store holding only `provMum`. -/
def dbMum : DB := { users := [], providers := [provMum], bookings := [] }

/-- Witness for the amended C7: the metacharacter-free filter location=mum
returns the verified provider located in Mumbai, and every returned provider
satisfies the filter properties. -/
theorem C7_listProviders_amended_witness :
    provMum ∈ listProviders dbMum none (some "mum") ∧
    (provMum.verified = true ∧
     (∀ s, (none : Option String) = some s → s ∈ provMum.services) ∧
     (∀ l, (some "mum" : Option String) = some l → hasRegexMeta l = false →
       (lowerStr l).data <:+: (lowerStr provMum.location).data)) :=
  ⟨by decide, C7_listProviders_amended dbMum none (some "mum") provMum (by decide)⟩

/-- C8: for a provider-role stats call, a caller with no Provider record
gets 404; otherwise the response counts that provider's bookings in total,
those pending and those completed, sums the amounts of the completed ones as
totalRevenue, and reports the provider's stored rating as averageRating. -/
theorem C8_dashboardStats_provider (db : DB) (uid : Nat) :
    (findProviderByUserId db uid = none →
      dashboardStats db uid "provider" =
        { status := 404, message := some "Provider profile not found",
          totalBookings := none, pendingBookings := none, completedBookings := none,
          totalRevenue := none, averageRating := none }) ∧
    (∀ p, findProviderByUserId db uid = some p →
      dashboardStats db uid "provider" =
        { status := 200, message := none,
          totalBookings := some (db.bookings.filter (fun b => b.providerId == p.id)).length,
          pendingBookings := some
            ((db.bookings.filter (fun b => b.providerId == p.id)).filter
              (fun b => b.status == "pending")).length,
          completedBookings := some
            ((db.bookings.filter (fun b => b.providerId == p.id)).filter
              (fun b => b.status == "completed")).length,
          totalRevenue := some
            ((((db.bookings.filter (fun b => b.providerId == p.id)).filter
                (fun b => b.status == "completed")).map (fun b => b.amount)).sum),
          averageRating := some p.rating }) := by
  constructor
  · intro h
    unfold dashboardStats
    rw [if_pos rfl, h]
  · intro p hp
    have hff : ∀ st : String,
        (db.bookings.filter (fun b => b.providerId == p.id)).filter
            (fun b => b.status == st) =
          db.bookings.filter (fun b => b.providerId == p.id && b.status == st) := by
      intro st
      rw [List.filter_filter]
      exact List.filter_congr (fun a _ => by rw [Bool.and_comm])
    unfold dashboardStats
    rw [if_pos rfl, hp, hff "pending", hff "completed"]

/-- Provider with rating 4 for the stats witness. -/
def provStats : ProviderR :=
  { id := 3, userId := 1, services := ["plumbing"], experience := 2,
    location := "Delhi", availability := "weekdays", rating := 4, totalReviews := 2,
    verified := true, createdAt := 1 }

/-- Completed booking of amount 500 for `provStats`. -/
def bkDone : BookingR :=
  { id := 1, bookingId := "BK000001", customerId := 7, providerId := 3,
    service := "plumbing", date := "2026-01-01", time := "10:00",
    location := "Delhi", amount := 500, status := "completed", createdAt := 5 }

/-- Pending booking of amount 300 for `provStats`. -/
def bkPend : BookingR :=
  { id := 2, bookingId := "BK000002", customerId := 8, providerId := 3,
    service := "plumbing", date := "2026-01-02", time := "11:00",
    location := "Delhi", amount := 300, status := "pending", createdAt := 6 }

/-- Store for the stats witness: `provStats` with one completed and one
pending booking. -/
def dbStats : DB := { users := [], providers := [provStats], bookings := [bkDone, bkPend] }

/-- Witness for C8, the worked example of the specification: one completed
booking of amount 500 plus one pending booking of amount 300 yields
totalRevenue 500, totalBookings 2, pendingBookings 1, completedBookings 1,
and averageRating is the stored rating 4. -/
theorem C8_dashboardStats_provider_witness :
    dashboardStats dbStats 1 "provider" =
      { status := 200, message := none, totalBookings := some 2,
        pendingBookings := some 1, completedBookings := some 1,
        totalRevenue := some 500, averageRating := some 4 } := by
  have h := (C8_dashboardStats_provider dbStats 1).2 provStats rfl
  rw [h]
  decide

/-- Booking whose provider is unrelated to caller 1, in a store with no
Provider records at all. -/
def bkOrphan : BookingR :=
  { id := 1, bookingId := "BK000009", customerId := 7, providerId := 3,
    service := "plumbing", date := "2026-01-01", time := "10:00",
    location := "Delhi", amount := 500, status := "pending", createdAt := 5 }

/-- Store with one booking and no Provider records. -/
def dbOrphan : DB := { users := [], providers := [], bookings := [bkOrphan] }

/-- C1 counterexample: a provider-role caller with no Provider record is
returned the full booking list, so the result is not contained in the set of
bookings whose providerId matches a Provider record owned by the caller
(there is none). -/
theorem C1_counterexample :
    ¬ (∀ b ∈ listAllBookings 1 "provider" dbOrphan,
        ∃ pr ∈ dbOrphan.providers, pr.userId = 1 ∧ b.providerId = pr.id) := by
  decide

/-- C1 (amended): for a provider-role caller owning a Provider record the
list-all result is exactly the bookings of that record; for a provider-role
caller owning none, and for any non-provider caller, it is the full
unfiltered booking set; in all cases it is ordered most recent first. -/
theorem C1_listAll_amended (db : DB) (uid : Nat) (role : String) :
    (∀ p, role = "provider" → findProviderByUserId db uid = some p →
      List.Perm (listAllBookings uid role db)
        (db.bookings.filter (fun b => b.providerId == p.id))) ∧
    (role = "provider" → findProviderByUserId db uid = none →
      List.Perm (listAllBookings uid role db) db.bookings) ∧
    (role ≠ "provider" → List.Perm (listAllBookings uid role db) db.bookings) ∧
    (listAllBookings uid role db).Pairwise laterFirst := by
  refine ⟨?_, ?_, ?_, ?_⟩
  · intro p hrole hp
    subst hrole
    have hq : bookingQuery uid "provider" db = fun b => b.providerId == p.id := by
      unfold bookingQuery
      rw [if_pos rfl, hp]
    unfold listAllBookings
    rw [hq]
    exact List.perm_insertionSort laterFirst _
  · intro hrole hp
    subst hrole
    have hq : bookingQuery uid "provider" db = fun _ => true := by
      unfold bookingQuery
      rw [if_pos rfl, hp]
    unfold listAllBookings
    rw [hq]
    have hfilter : db.bookings.filter (fun _ => true) = db.bookings := by
      simp
    rw [hfilter]
    exact List.perm_insertionSort laterFirst _
  · intro hrole
    have hq : bookingQuery uid role db = fun _ => true := by
      unfold bookingQuery
      rw [if_neg hrole]
    unfold listAllBookings
    rw [hq]
    have hfilter : db.bookings.filter (fun _ => true) = db.bookings := by
      simp
    rw [hfilter]
    exact List.perm_insertionSort laterFirst _
  · exact List.sorted_insertionSort laterFirst _

/-- Provider record owned by caller 1 for the list-all witness. -/
def provList : ProviderR :=
  { id := 3, userId := 1, services := ["plumbing"], experience := 2,
    location := "Delhi", availability := "weekdays", rating := 0, totalReviews := 0,
    verified := true, createdAt := 1 }

/-- Booking belonging to `provList`. -/
def bkMine : BookingR :=
  { id := 1, bookingId := "BK000001", customerId := 7, providerId := 3,
    service := "plumbing", date := "2026-01-01", time := "10:00",
    location := "Delhi", amount := 500, status := "pending", createdAt := 5 }

/-- Booking belonging to a different provider. -/
def bkOther : BookingR :=
  { id := 2, bookingId := "BK000002", customerId := 8, providerId := 9,
    service := "cleaning", date := "2026-01-02", time := "11:00",
    location := "Pune", amount := 300, status := "pending", createdAt := 7 }

/-- Store for the list-all witness. -/
def dbList : DB := { users := [], providers := [provList], bookings := [bkMine, bkOther] }

/-- Witness for the amended C1: the provider-role caller 1 sees exactly the
bookings of their Provider record, a customer-role caller sees everything, a
provider-role caller with no record sees everything, and results are sorted
most recent first. -/
theorem C1_listAll_amended_witness :
    List.Perm (listAllBookings 1 "provider" dbList)
      (dbList.bookings.filter (fun b => b.providerId == provList.id)) ∧
    List.Perm (listAllBookings 1 "customer" dbList) dbList.bookings ∧
    List.Perm (listAllBookings 1 "provider" dbOrphan) dbOrphan.bookings ∧
    (listAllBookings 1 "provider" dbList).Pairwise laterFirst :=
  ⟨(C1_listAll_amended dbList 1 "provider").1 provList rfl rfl,
   (C1_listAll_amended dbList 1 "customer").2.2.1 (by decide),
   (C1_listAll_amended dbOrphan 1 "provider").2.1 rfl rfl,
   (C1_listAll_amended dbList 1 "provider").2.2.2⟩
